import Mathlib

/-
Verification of the multi-mode analysis request/response pipeline of this
repository (src/services/geminiService.ts) against its specification, via a
shallow embedding in Lean 4.

Modelling conventions:
- JavaScript strings are modelled as Lean `String`; `str.includes(pat)` is
  substring containment on the underlying character lists; `.trim()` is
  `jsTrim` (strip leading/trailing whitespace); template literals are
  explicit `++` concatenations.
- JavaScript numbers that carry fractional scores (novelty, impact,
  temperature) are modelled as `ℚ`; counts, lengths and delays as `ℕ`.
- `async` functions that may throw are modelled as `Except String α`
  (the thrown error is identified with its message string, matching
  `err.message` in `callWithRetry`).
- The external generative-AI endpoint is an oracle: a function from the
  attempt number to the outcome of that attempt.  `setTimeout` waits are
  recorded as a list of the delays that were slept, in order.
- JavaScript truthiness is modelled explicitly where the source relies on
  it (`""`, `undefined`/absent and `0` are falsy).
-/

set_option linter.unusedVariables false

/-! ## Basic JavaScript string helpers -/

/-- Whitespace as stripped by JavaScript `String.prototype.trim`. -/
def jsWhitespace (c : Char) : Bool :=
  c = ' ' || c = '\n' || c = '\t' || c = '\r'

/-- Model of JavaScript `str.trim()`: strip leading and trailing whitespace. -/
def jsTrim (s : String) : String :=
  String.mk (((s.data.dropWhile jsWhitespace).reverse.dropWhile jsWhitespace).reverse)

/-- Model of JavaScript `str.includes(pat)`: substring containment. -/
def containsSub (s pat : String) : Bool :=
  decide (pat.data <:+: s.data)

/-! ## Resilient invoker: `callWithRetry` (geminiService.ts lines 8-30)

`async function callWithRetry<T>(fn, retries = 3, delay = 2000)`:
try `fn()`; on an error whose message matches a quota fingerprint, throw the
quota message; else on an oversized-payload/network fingerprint, throw the
payload message; else if retries are exhausted rethrow, otherwise wait
`delay` ms and recurse with `retries - 1` and `delay * 2`.

The wrapped operation is modelled as `op : Nat → Except String α`, giving the
outcome of each successive attempt (attempt 0 is the initial call).  The
result is paired with the list of delays that were waited, in order. -/

/-- Quota-exhaustion fingerprint test (line 15 of geminiService.ts). -/
def isQuotaError (msg : String) : Bool :=
  containsSub msg "429" || containsSub msg "RESOURCE_EXHAUSTED" || containsSub msg "quota"

/-- Oversized-payload / network-rejection fingerprint test (line 20). -/
def isPayloadError (msg : String) : Bool :=
  containsSub msg "Rpc failed" || containsSub msg "error code: 6" || containsSub msg "XHR"

/-- User-facing message thrown on a quota-fingerprint failure (line 16). -/
def quotaExceededMsg : String :=
  "⚠️ API Quota Exceeded. The system is momentarily rate-limited by Google. Please wait a minute or analyze fewer papers."

/-- User-facing message thrown on an oversized-payload failure (line 21). -/
def payloadTooLargeMsg : String :=
  "⚠️ Network Payload Too Large. Please reduce 'Max Papers' to < 100, or the request size exceeded browser limits."

/-- Recursive core of `callWithRetry`: attempt `i` of the operation, with
`retries` retries left and current backoff `delay`.  Returns the final
outcome and the list of delays waited. -/
def callWithRetryAux {α : Type} (op : Nat → Except String α) (i retries delay : Nat) :
    Except String α × List Nat :=
  match op i with
  | .ok v => (.ok v, [])
  | .error err =>
    if isQuotaError err then (.error quotaExceededMsg, [])
    else if isPayloadError err then (.error payloadTooLargeMsg, [])
    else
      match retries with
      | 0 => (.error err, [])
      | r + 1 =>
        ((callWithRetryAux op (i + 1) r (delay * 2)).1,
          delay :: (callWithRetryAux op (i + 1) r (delay * 2)).2)

/-- `callWithRetry fn retries delay`, starting at attempt 0. -/
def callWithRetry {α : Type} (op : Nat → Except String α) (retries delay : Nat) :
    Except String α × List Nat :=
  callWithRetryAux op 0 retries delay

/-- A transient outcome: an error matching neither fatal fingerprint. -/
def transientError (e : String) : Prop :=
  isQuotaError e = false ∧ isPayloadError e = false

instance (e : String) : Decidable (transientError e) := by
  unfold transientError; infer_instance

instance {α β : Type} [DecidableEq α] [DecidableEq β] : DecidableEq (Except α β)
  | .ok a, .ok b =>
    if h : a = b then .isTrue (by rw [h]) else .isFalse (by simp [h])
  | .ok a, .error b => .isFalse (by simp)
  | .error a, .ok b => .isFalse (by simp)
  | .error a, .error b =>
    if h : a = b then .isTrue (by rw [h]) else .isFalse (by simp [h])

/-! ### Helper lemmas for the retry/backoff law -/

/-- One step of `callWithRetryAux` when the current attempt succeeds. -/
theorem callWithRetryAux_ok_step {α : Type} (op : Nat → Except String α)
    (i retries delay : Nat) (v : α) (h : op i = .ok v) :
    callWithRetryAux op i retries delay = (.ok v, []) := by
  rw [callWithRetryAux.eq_def, h]

/-- One step of `callWithRetryAux` when the current attempt fails with a
transient (non-fatal) error and retries remain. -/
theorem callWithRetryAux_transient_step {α : Type} (op : Nat → Except String α)
    (i r delay : Nat) (e : String) (h : op i = .error e)
    (hq : isQuotaError e = false) (hp : isPayloadError e = false) :
    callWithRetryAux op i (r + 1) delay =
      ((callWithRetryAux op (i + 1) r (delay * 2)).1,
        delay :: (callWithRetryAux op (i + 1) r (delay * 2)).2) := by
  rw [callWithRetryAux.eq_def, h]
  simp [hq, hp]

/-- One step of `callWithRetryAux` when the current attempt fails with a
transient error and no retries remain: the error is propagated unmodified. -/
theorem callWithRetryAux_exhausted_step {α : Type} (op : Nat → Except String α)
    (i delay : Nat) (e : String) (h : op i = .error e)
    (hq : isQuotaError e = false) (hp : isPayloadError e = false) :
    callWithRetryAux op i 0 delay = (.error e, []) := by
  rw [callWithRetryAux.eq_def, h]
  simp [hq, hp]

/-- The doubling wait schedule: prepending the first wait. -/
theorem waits_succ (delay k : Nat) :
    (List.range (k + 1)).map (fun j => delay * 2 ^ j)
      = delay :: (List.range k).map (fun j => delay * 2 * 2 ^ j) := by
  rw [List.range_succ_eq_map, List.map_cons, List.map_map]
  congr 1
  · simp
  · apply List.map_congr_left
    intro j hj
    simp only [Function.comp_apply]
    rw [pow_succ]
    ring

/-- If attempts `i, i+1, ..., i+k-1` fail transiently and attempt `i+k`
succeeds with `v`, and at least `k` retries remain, the invoker returns `v`
after waits `delay, delay*2, ..., delay*2^(k-1)`. -/
theorem callWithRetryAux_ok {α : Type} (op : Nat → Except String α) (errs : Nat → String)
    (v : α) :
    ∀ k i retries delay,
      (∀ j, j < k → op (i + j) = .error (errs (i + j)) ∧ transientError (errs (i + j))) →
      op (i + k) = .ok v → k ≤ retries →
      callWithRetryAux op i retries delay = (.ok v, (List.range k).map (fun j => delay * 2 ^ j)) := by
  intro k
  induction k with
  | zero =>
    intro i retries delay hfail hok hk
    simp only [Nat.add_zero] at hok
    simp [callWithRetryAux_ok_step op i retries delay v hok]
  | succ k ih =>
    intro i retries delay hfail hok hk
    have hf := hfail 0 (Nat.succ_pos k)
    have h0 : op i = .error (errs i) := by simpa using hf.1
    have hq : isQuotaError (errs i) = false := by simpa using hf.2.1
    have hp : isPayloadError (errs i) = false := by simpa using hf.2.2
    match retries, hk with
    | r + 1, hk =>
      have hrest := ih (i + 1) r (delay * 2)
        (fun j hj => by
          have h := hfail (j + 1) (by omega)
          rw [show i + (j + 1) = i + 1 + j by omega] at h
          exact h)
        (by rw [show i + 1 + k = i + (k + 1) by omega]; exact hok)
        (by omega)
      rw [callWithRetryAux_transient_step op i r delay (errs i) h0 hq hp, hrest, waits_succ]

/-- If attempts `i, ..., i + retries` all fail transiently, the invoker
propagates the error of the last attempt after exhausting all waits. -/
theorem callWithRetryAux_exhaust {α : Type} (op : Nat → Except String α) (errs : Nat → String) :
    ∀ retries i delay,
      (∀ j, j ≤ retries → op (i + j) = .error (errs (i + j)) ∧ transientError (errs (i + j))) →
      callWithRetryAux op i retries delay =
        (.error (errs (i + retries)), (List.range retries).map (fun j => delay * 2 ^ j)) := by
  intro retries
  induction retries with
  | zero =>
    intro i delay hfail
    have hf := hfail 0 (Nat.le_refl 0)
    have h0 : op i = .error (errs i) := by simpa using hf.1
    have hq : isQuotaError (errs i) = false := by simpa using hf.2.1
    have hp : isPayloadError (errs i) = false := by simpa using hf.2.2
    simp [callWithRetryAux_exhausted_step op i delay (errs i) h0 hq hp]
  | succ r ih =>
    intro i delay hfail
    have hf := hfail 0 (Nat.zero_le _)
    have h0 : op i = .error (errs i) := by simpa using hf.1
    have hq : isQuotaError (errs i) = false := by simpa using hf.2.1
    have hp : isPayloadError (errs i) = false := by simpa using hf.2.2
    have hrest := ih (i + 1) (delay * 2)
      (fun j hj => by
        have h := hfail (j + 1) (by omega)
        rw [show i + (j + 1) = i + 1 + j by omega] at h
        exact h)
    rw [callWithRetryAux_transient_step op i r delay (errs i) h0 hq hp, hrest, waits_succ]
    rw [show i + 1 + r = i + (r + 1) by omega]

/-! ### C3 and C4 -/

/-- C3: an operation whose failure message matches the quota fingerprint
fails at once with the distinct quota message, and one matching only the
oversized-payload fingerprint fails at once with the distinct payload
message; in both cases no wait is performed and no further attempt is made
(the result is fixed by attempt 0 alone), for every remaining retry budget;
the two surfaced messages are distinguishable. -/
theorem callWithRetry_fatal_short_circuit {α : Type} (op : Nat → Except String α)
    (retries delay : Nat) (e : String) (h0 : op 0 = .error e) :
    (isQuotaError e = true →
      callWithRetry op retries delay = (.error quotaExceededMsg, [])) ∧
    (isQuotaError e = false → isPayloadError e = true →
      callWithRetry op retries delay = (.error payloadTooLargeMsg, [])) ∧
    quotaExceededMsg ≠ payloadTooLargeMsg := by
  refine ⟨?_, ?_, by decide⟩
  · intro hq
    show callWithRetryAux op 0 retries delay = _
    rw [callWithRetryAux.eq_def, h0]
    simp [hq]
  · intro hq hp
    show callWithRetryAux op 0 retries delay = _
    rw [callWithRetryAux.eq_def, h0]
    simp [hq, hp]

/-- Witness for C3: a "429" failure and an "XHR" failure on the first
attempt each short-circuit with their own message, despite 5 retries left. -/
theorem callWithRetry_fatal_short_circuit_witness :
    callWithRetry (fun _ => (.error "got HTTP 429 from server" : Except String Nat)) 5 2000
        = (.error quotaExceededMsg, []) ∧
    callWithRetry (fun _ => (.error "XHR request failed" : Except String Nat)) 5 2000
        = (.error payloadTooLargeMsg, []) := by
  constructor
  · exact (callWithRetry_fatal_short_circuit _ 5 2000 "got HTTP 429 from server" rfl).1 (by decide)
  · exact (callWithRetry_fatal_short_circuit _ 5 2000 "XHR request failed" rfl).2.1
      (by decide) (by decide)

/-- C4: an operation failing transiently exactly `k` times and then
succeeding, run with retry budget at least `k`, returns the success value
after exactly `k` waits whose delays double strictly from the initial
delay (`delay * 2^j` for `j = 0, ..., k-1`); with budget less than `k` it
propagates the error of the last attempt unmodified, after exhausting all
`retries` waits. -/
theorem callWithRetry_backoff_law {α : Type} (op : Nat → Except String α)
    (errs : Nat → String) (k retries delay : Nat) (v : α)
    (hfail : ∀ j, j < k → op j = .error (errs j) ∧ transientError (errs j)) :
    (k ≤ retries → op k = .ok v →
      callWithRetry op retries delay = (.ok v, (List.range k).map (fun j => delay * 2 ^ j))) ∧
    (retries < k →
      callWithRetry op retries delay =
        (.error (errs retries), (List.range retries).map (fun j => delay * 2 ^ j))) := by
  constructor
  · intro hk hok
    have h := callWithRetryAux_ok op errs v k 0 retries delay
      (fun j hj => by simpa using hfail j hj) (by simpa using hok) hk
    exact h
  · intro hk
    have h := callWithRetryAux_exhaust op errs retries 0 delay
      (fun j hj => by simpa using hfail j (by omega))
    simp only [Nat.zero_add] at h
    exact h

/-- Witness for C4: an operation failing twice then succeeding with 42,
run with budget 3, returns 42 after waits 2000 and 4000; the same
operation with budget 1 propagates the second "boom" after one wait. -/
theorem callWithRetry_backoff_law_witness :
    callWithRetry (fun i => if i < 2 then .error "boom" else .ok 42) 3 2000
        = (.ok 42, [2000, 4000]) ∧
    callWithRetry (fun i => if i < 2 then .error "boom" else .ok 42) 1 2000
        = (.error "boom", [2000]) := by
  constructor
  · have h := (callWithRetry_backoff_law (fun i => if i < 2 then .error "boom" else .ok 42)
      (fun _ => "boom") 2 3 2000 42 (by decide)).1 (by omega) rfl
    rw [h]
    rfl
  · have h := (callWithRetry_backoff_law (fun i => if i < 2 then .error "boom" else .ok 42)
      (fun _ => "boom") 2 1 2000 42 (by decide)).2 (by omega)
    rw [h]
    rfl

/-! ## Data model (types.ts) and payload shaping (geminiService.ts lines 62-98) -/

/-- A bibliographic record, as in `types.ts` (`authors` is optional there). -/
structure Paper where
  id : String
  title : String
  abstract : String
  year : Nat
  journal : String
  authors : Option (List String)
deriving DecidableEq

/-- The `focus` enumeration of `AnalysisConfig`. -/
inductive Focus
  | broad
  | balanced
  | specific
deriving DecidableEq

/-- The `algorithm` enumeration of `AnalysisConfig`. -/
inductive Algorithm
  | consultant
  | standard
  | strict
deriving DecidableEq

/-- `AnalysisConfig` from `types.ts`. -/
structure AnalysisConfig where
  creativity : ℚ
  depth : ℚ
  focus : Focus
  algorithm : Algorithm
  maxPapers : Nat

/-- `const MAX_PAPERS = config.maxPapers || 50` (line 73): a `0` (falsy)
cap falls back to 50. -/
def effectiveMaxPapers (cfg : AnalysisConfig) : Nat :=
  if cfg.maxPapers = 0 then 50 else cfg.maxPapers

/-- `papers.slice(0, MAX_PAPERS)` (line 74). -/
def papersToAnalyze (cfg : AnalysisConfig) (papers : List Paper) : List Paper :=
  papers.take (effectiveMaxPapers cfg)

/-- `papersToAnalyze.length > 100` (line 77). -/
def isHighVolume (cfg : AnalysisConfig) (papers : List Paper) : Bool :=
  decide ((papersToAnalyze cfg papers).length > 100)

/-- One line of the paper payload (lines 80-89).  High volume uses the
minimal format; otherwise the abstract, truncated to its first 500
characters, is appended (an absent/empty abstract becomes `NA`). -/
def paperLine (highVol : Bool) (p : Paper) : String :=
  if highVol then
    "ID:" ++ p.id ++ "|Y:" ++ toString p.year ++ "|" ++ p.title
  else
    "ID:" ++ p.id ++ "|Y:" ++ toString p.year ++ "|" ++ p.title ++ "|" ++
      (if p.abstract = "" then "NA" else p.abstract.take 500)

/-- The newline-joined per-paper payload before safety truncation
(lines 80-89). -/
def rawPapersText (cfg : AnalysisConfig) (papers : List Paper) : String :=
  String.intercalate "\n" ((papersToAnalyze cfg papers).map (paperLine (isHighVolume cfg papers)))

/-- The hard payload ceiling `MAX_SAFE_CHARS` (line 94). -/
def maxSafeChars : Nat := 300000

/-- The truncation marker appended when the payload is cut (line 97). -/
def truncMarker : String := "\n...[TRUNCATED_TO_PREVENT_CRASH]"

/-- Safety truncation of the joined payload (lines 95-98). -/
def papersTextSafe (cfg : AnalysisConfig) (papers : List Paper) : String :=
  if (rawPapersText cfg papers).length > maxSafeChars then
    (rawPapersText cfg papers).take maxSafeChars ++ truncMarker
  else
    rawPapersText cfg papers

/-! ## Prompt builders (geminiService.ts lines 100-114 and 204-229) -/

/-- The strict-mode (Mode C) prompt template (lines 102-114). -/
def strictPrompt (n : Nat) (highVol : Bool) (papersText : String) : String :=
  "\nROLE: STRICT DATA CLUSTERING ENGINE.\nDATASET_SIZE: " ++ toString n ++ " papers." ++ "\nMODE: " ++
    (if highVol then "HIGH_VOLUME (Titles Only)" else "DEEP_SCAN (Abstracts)") ++
    "\n\nPROTOCOL:\n1. FILTER NOISE: Identify generic papers (20-40%).\n2. CLUSTER: Group remaining papers by specific mechanism/target.\n3. OUTPUT: JSON.\n\nINPUT DATA:\n" ++
    papersText ++ "\n"

/-- The system instruction for the two non-strict modes (lines 210-218). -/
def systemInstr (alg : Algorithm) : String :=
  if alg = .standard then
    "Role: Research Assistant. Task: Group papers by factual topics. Style: Descriptive, comprehensive."
  else
    "Role: Visionary Scientist. Task: Find hidden connections/future trends. Style: Provocative."

/-- The sampling temperature for the two non-strict modes (lines 206-218). -/
def abTemperature (alg : Algorithm) : ℚ :=
  if alg = .standard then 0.3 else 0.85

/-- The human-readable mode label for the two non-strict modes. -/
def abModeName (alg : Algorithm) : String :=
  if alg = .standard then "Standard (Mode B)" else "Consultant (Mode A)"

/-- The Mode A / Mode B prompt template (lines 220-229).  The title-only
note is present exactly when the request is high volume; the template
never mentions `focus`, `creativity` or `depth`. -/
def abPrompt (instr : String) (n : Nat) (highVol : Bool) (papersText : String) : String :=
  "\n" ++ instr ++ "\nDataset: " ++ toString n ++ " papers." ++ "\n" ++
    (if highVol then "Note: Analyzing Titles Only (High Volume)." else "") ++
    "\n\nTask: Analyze and Cluster.\n\nInput:\n" ++ papersText ++ "\n  "

/-- The instruction text built by `analyzePapersWithGemini` for a request:
the strict template when `config.algorithm === 'strict'`, else the
Mode A/B template. -/
def analysisPrompt (cfg : AnalysisConfig) (papers : List Paper) : String :=
  if cfg.algorithm = .strict then
    strictPrompt (papersToAnalyze cfg papers).length (isHighVolume cfg papers)
      (papersTextSafe cfg papers)
  else
    abPrompt (systemInstr cfg.algorithm) (papersToAnalyze cfg papers).length
      (isHighVolume cfg papers) (papersTextSafe cfg papers)

/-! ### C1 and C5 -/

/-- A concrete standard-mode configuration with `focus = broad`. -/
def cfgStdBroad : AnalysisConfig :=
  { creativity := 0.25, depth := 0.25, focus := .broad, algorithm := .standard, maxPapers := 50 }

/-- A concrete standard-mode configuration with `focus = balanced`. -/
def cfgStdBalanced : AnalysisConfig :=
  { creativity := 0.25, depth := 0.25, focus := .balanced, algorithm := .standard, maxPapers := 50 }

/-- A concrete standard-mode configuration with different creativity/depth. -/
def cfgStdHiCreative : AnalysisConfig :=
  { creativity := 0.75, depth := 0.9, focus := .balanced, algorithm := .standard, maxPapers := 50 }

/-- A concrete strict-mode configuration. -/
def cfgStrictEx : AnalysisConfig :=
  { creativity := 0.5, depth := 0.5, focus := .balanced, algorithm := .strict, maxPapers := 50 }

/-- A concrete consultant-mode configuration. -/
def cfgConsultEx : AnalysisConfig :=
  { creativity := 0.5, depth := 0.5, focus := .balanced, algorithm := .consultant, maxPapers := 50 }

/-- Counterexample to C1: the instruction text built by
`analyzePapersWithGemini` is byte-identical whether `focus` is `broad` or
`balanced` (so `broad` appends no scope-narrowing clause), and
byte-identical across different creativity/depth values (so no
creativity/depth percentages are embedded in a non-strict mode). -/
theorem analysisPrompt_focus_creativity_counterexample :
    analysisPrompt cfgStdBroad [] = analysisPrompt cfgStdBalanced [] ∧
    analysisPrompt cfgStdBalanced [] = analysisPrompt cfgStdHiCreative [] :=
  ⟨rfl, rfl⟩

/-- C1 (amended): for every request the instruction text embeds the total
(capped) paper count; in strict mode it always embeds which of the two
volume modes is active, and in non-strict modes it embeds a title-only
note exactly when volume exceeds 100 (and nothing otherwise); the
instruction text does not depend on `focus`, `creativity` or `depth`. -/
theorem analysisPrompt_embeds (cfg : AnalysisConfig) (papers : List Paper) :
    (∃ a b, analysisPrompt cfg papers
        = a ++ toString (papersToAnalyze cfg papers).length ++ " papers." ++ b) ∧
    (cfg.algorithm = .strict → ∃ a b, analysisPrompt cfg papers
        = a ++ (if isHighVolume cfg papers then "HIGH_VOLUME (Titles Only)"
            else "DEEP_SCAN (Abstracts)") ++ b) ∧
    (cfg.algorithm ≠ .strict → ∃ a b, analysisPrompt cfg papers
        = a ++ (if isHighVolume cfg papers then "Note: Analyzing Titles Only (High Volume)."
            else "") ++ b) ∧
    (∀ c d f, analysisPrompt { cfg with creativity := c, depth := d, focus := f } papers
        = analysisPrompt cfg papers) := by
  refine ⟨?_, ?_, ?_, fun c d f => rfl⟩
  · by_cases h : cfg.algorithm = .strict
    · refine ⟨"\nROLE: STRICT DATA CLUSTERING ENGINE.\nDATASET_SIZE: ",
        "\nMODE: " ++
          (if isHighVolume cfg papers then "HIGH_VOLUME (Titles Only)"
            else "DEEP_SCAN (Abstracts)") ++
          "\n\nPROTOCOL:\n1. FILTER NOISE: Identify generic papers (20-40%).\n2. CLUSTER: Group remaining papers by specific mechanism/target.\n3. OUTPUT: JSON.\n\nINPUT DATA:\n" ++
          papersTextSafe cfg papers ++ "\n", ?_⟩
      unfold analysisPrompt
      rw [if_pos h]
      simp only [strictPrompt, String.append_assoc]
    · refine ⟨"\n" ++ systemInstr cfg.algorithm ++ "\nDataset: ",
        "\n" ++
          (if isHighVolume cfg papers then "Note: Analyzing Titles Only (High Volume)."
            else "") ++
          "\n\nTask: Analyze and Cluster.\n\nInput:\n" ++ papersTextSafe cfg papers ++ "\n  ", ?_⟩
      unfold analysisPrompt
      rw [if_neg h]
      simp only [abPrompt, String.append_assoc]
  · intro h
    refine ⟨"\nROLE: STRICT DATA CLUSTERING ENGINE.\nDATASET_SIZE: " ++
        toString (papersToAnalyze cfg papers).length ++ " papers." ++ "\nMODE: ",
      "\n\nPROTOCOL:\n1. FILTER NOISE: Identify generic papers (20-40%).\n2. CLUSTER: Group remaining papers by specific mechanism/target.\n3. OUTPUT: JSON.\n\nINPUT DATA:\n" ++
        papersTextSafe cfg papers ++ "\n", ?_⟩
    unfold analysisPrompt
    rw [if_pos h]
    simp only [strictPrompt, String.append_assoc]
  · intro h
    refine ⟨"\n" ++ systemInstr cfg.algorithm ++ "\nDataset: " ++
        toString (papersToAnalyze cfg papers).length ++ " papers." ++ "\n",
      "\n\nTask: Analyze and Cluster.\n\nInput:\n" ++ papersTextSafe cfg papers ++ "\n  ", ?_⟩
    unfold analysisPrompt
    rw [if_neg h]
    simp only [abPrompt, String.append_assoc]

/-- Witness for C1 (amended): the strict-mode clause and the non-strict
clause of `analysisPrompt_embeds`, each applied at a concrete request. -/
theorem analysisPrompt_embeds_witness :
    (∃ a b, analysisPrompt cfgStrictEx []
        = a ++ (if isHighVolume cfgStrictEx [] then "HIGH_VOLUME (Titles Only)"
            else "DEEP_SCAN (Abstracts)") ++ b) ∧
    (∃ a b, analysisPrompt cfgStdBalanced []
        = a ++ (if isHighVolume cfgStdBalanced [] then "Note: Analyzing Titles Only (High Volume)."
            else "") ++ b) :=
  ⟨(analysisPrompt_embeds cfgStrictEx []).2.1 rfl,
   (analysisPrompt_embeds cfgStdBalanced []).2.2.1 (by decide)⟩

/-- C5: if the newline-joined payload exceeds 300,000 characters it is cut
at exactly 300,000 characters with the truncation marker appended (so the
result has length exactly 300,000 plus the marker length); a payload at or
under the limit is left untouched. -/
theorem papersTextSafe_truncation (cfg : AnalysisConfig) (papers : List Paper) :
    ((rawPapersText cfg papers).length ≤ maxSafeChars →
      papersTextSafe cfg papers = rawPapersText cfg papers) ∧
    (maxSafeChars < (rawPapersText cfg papers).length →
      papersTextSafe cfg papers = (rawPapersText cfg papers).take maxSafeChars ++ truncMarker ∧
      (papersTextSafe cfg papers).length = maxSafeChars + truncMarker.length) := by
  constructor
  · intro h
    unfold papersTextSafe
    rw [if_neg (by omega)]
  · intro h
    have he : papersTextSafe cfg papers
        = (rawPapersText cfg papers).take maxSafeChars ++ truncMarker := by
      unfold papersTextSafe
      rw [if_pos (by omega)]
    refine ⟨he, ?_⟩
    rw [he, String.length_append]
    have hd : (rawPapersText cfg papers).data.length = (rawPapersText cfg papers).length := rfl
    have ht : ((rawPapersText cfg papers).take maxSafeChars).length = maxSafeChars := by
      rw [String.take_eq]
      show ((rawPapersText cfg papers).data.take maxSafeChars).length = maxSafeChars
      rw [List.length_take]
      omega
    omega

/-- A small concrete paper (payload well under the ceiling). -/
def smallPaper : Paper :=
  { id := "q", title := "t", abstract := "", year := 7, journal := "", authors := none }

/-- A 300,001-character title, used to exceed the payload ceiling. -/
def bigTitle : String := String.mk (List.replicate 300001 'a')

/-- A concrete paper whose line exceeds the payload ceiling by itself. -/
def bigPaper : Paper :=
  { id := "p", title := bigTitle, abstract := "", year := 5, journal := "", authors := none }

/-- The shaped line for `bigPaper` (deep-scan format, `NA` abstract). -/
theorem rawPapersText_bigPaper_eq :
    rawPapersText cfgConsultEx [bigPaper]
      = "ID:" ++ "p" ++ "|Y:" ++ "5" ++ "|" ++ bigTitle ++ "|" ++ "NA" := rfl

/-- The `bigPaper` payload exceeds the 300,000-character ceiling. -/
theorem rawPapersText_bigPaper_len :
    maxSafeChars < (rawPapersText cfgConsultEx [bigPaper]).length := by
  rw [rawPapersText_bigPaper_eq]
  have hb : bigTitle.length = 300001 := by
    rw [bigTitle]
    rw [show (String.mk (List.replicate 300001 'a')).length
        = (List.replicate 300001 'a').length from rfl]
    rw [List.length_replicate]
  simp only [String.length_append, hb, maxSafeChars]
  decide

/-- Witness for C5: a small payload is untouched; the oversized payload is
cut to exactly 300,000 characters plus the marker. -/
theorem papersTextSafe_truncation_witness :
    papersTextSafe cfgConsultEx [smallPaper] = rawPapersText cfgConsultEx [smallPaper] ∧
    (papersTextSafe cfgConsultEx [bigPaper]).length = maxSafeChars + truncMarker.length :=
  ⟨(papersTextSafe_truncation cfgConsultEx [smallPaper]).1 (by decide),
   ((papersTextSafe_truncation cfgConsultEx [bigPaper]).2 rawPapersText_bigPaper_len).2⟩

/-! ## Translation cache and `translateText` (geminiService.ts lines 4-60)

`translateText` trims the input, rejects inputs shorter than 2 characters,
computes a cache key, returns the cached value on a (truthy) hit, returns
"Key Missing" when the API key is falsy, and otherwise performs one
external call through `callWithRetry(fn, 1, 1000)` where `fn` catches all
its own errors and returns `""`, so the invoker always sees first-attempt
success.  State is passed explicitly: the cache is an association list
(most recent entry first, as record assignment overwrites), the external
call outcome `ai` is `Except` (error = thrown), and the third component of
the result counts `generateContent` invocations made by the call. -/

/-- Lookup in the translation cache (`translationCache[cacheKey]`). -/
def cacheLookup (cache : List (String × String)) (k : String) : Option String :=
  (cache.find? (fun e => e.1 == k)).map (fun e => e.2)

/-- Truthiness of `translationCache[cacheKey]`: present and non-empty
(an absent key yields `undefined`, an empty string is falsy). -/
def truthyLookup (v : Option String) : Bool :=
  match v with
  | some s => !(s == "")
  | none => false

/-- Truthiness test of `!process.env.API_KEY`: absent or empty is falsy. -/
def jsFalsyKey (key : Option String) : Bool :=
  match key with
  | some s => s == ""
  | none => true

/-- The cache key (line 37): the trimmed text itself if at most 50
characters, else its first 50 characters concatenated with the decimal
rendering of its full length. -/
def translationCacheKey (cleanText : String) : String :=
  if cleanText.length > 50 then cleanText.take 50 ++ toString cleanText.length
  else cleanText

/-- The operation handed to `callWithRetry` by `translateText`
(lines 45-59): it catches any error from the external call and returns
`""`, so it never throws; on success it returns the trimmed response text
(with `undefined` and all-whitespace responses collapsing to `""`). -/
def translationAttempt (ai : Except String (Option String)) : Except String String :=
  match ai with
  | .error _ => .ok ""
  | .ok respText => .ok (jsTrim (respText.getD ""))

/-- `translateText` (lines 32-60), as a state-passing function.  Returns
(result string, new cache, number of external calls made). -/
def translateText (cache : List (String × String)) (apiKey : Option String)
    (ai : Except String (Option String)) (text : String) :
    String × List (String × String) × Nat :=
  if jsTrim text = "" ∨ (jsTrim text).length < 2 then ("", cache, 0)
  else if truthyLookup (cacheLookup cache (translationCacheKey (jsTrim text))) then
    ((cacheLookup cache (translationCacheKey (jsTrim text))).getD "", cache, 0)
  else if jsFalsyKey apiKey then ("Key Missing", cache, 0)
  else
    match ai with
    | .error _ => ("", cache, 1)
    | .ok respText =>
      (jsTrim (respText.getD ""),
        (translationCacheKey (jsTrim text), jsTrim (respText.getD "")) :: cache, 1)

/-- An input of trimmed length at least 2 passes the short-input guard. -/
theorem translate_guard_passes (t : String) (h : 2 ≤ (jsTrim t).length) :
    ¬(jsTrim t = "" ∨ (jsTrim t).length < 2) := by
  rintro (hc | hc)
  · rw [hc] at h
    have h0 : ("" : String).length = 0 := rfl
    omega
  · omega

/-! ### C7, C8 and C10 -/

/-- Counterexample to C7: on a failed external call, `translateText`
returns the empty string but does NOT cache it — the cache is unchanged
and a subsequent lookup of the key still misses. -/
theorem translate_failure_not_cached_counterexample :
    translateText [] (some "k") (.error "boom") "hello" = ("", [], 1) ∧
    cacheLookup (translateText [] (some "k") (.error "boom") "hello").2.1
        (translationCacheKey (jsTrim "hello")) = none :=
  ⟨rfl, rfl⟩

/-- C7 (amended): on a cache miss with a key present, `translateText`
performs the external call (wrapped with a single-retry budget) and on any
failure of that call returns the empty string WITHOUT writing to the
cache; the wrapped operation swallows its own error, so the invoker sees
first-attempt success and no translation failure ever raises past the
`translateText` boundary. -/
theorem translate_failure_swallowed (cache : List (String × String))
    (apiKey : Option String) (text e : String)
    (hlen : 2 ≤ (jsTrim text).length)
    (hmiss : truthyLookup (cacheLookup cache (translationCacheKey (jsTrim text))) = false)
    (hkey : jsFalsyKey apiKey = false) :
    translateText cache apiKey (.error e) text = ("", cache, 1) ∧
    translationAttempt (.error e) = .ok "" ∧
    callWithRetry (fun _ => translationAttempt (.error e)) 1 1000 = (.ok "", []) := by
  refine ⟨?_, rfl, ?_⟩
  · unfold translateText
    rw [if_neg (translate_guard_passes text hlen), if_neg (by rw [hmiss]; simp),
      if_neg (by rw [hkey]; simp)]
  · exact callWithRetryAux_ok_step (fun _ => translationAttempt (.error e)) 0 1 1000 "" rfl

/-- Witness for C7 (amended): a concrete failed translation returns the
empty string, leaves the empty cache empty, and makes one external call. -/
theorem translate_failure_swallowed_witness :
    translateText [] (some "k") (.error "boom") "hola" = ("", [], 1) :=
  (translate_failure_swallowed [] (some "k") "hola" "boom" (by decide) (by decide)
    (by decide)).1

/-- Counterexample to C8: translating the same text twice can issue TWO
external calls.  Here the first call succeeds but returns an
all-whitespace translation, which is cached as the empty string; the
cached empty string is falsy, so the second invocation misses the cache
and calls out again. -/
theorem translate_cache_twice_counterexample :
    (translateText [] (some "k") (.ok (some " ")) "hello").2.2 = 1 ∧
    (translateText (translateText [] (some "k") (.ok (some " ")) "hello").2.1
        (some "k") (.ok (some " ")) "hello").2.2 = 1 :=
  ⟨rfl, rfl⟩

/-- C8 (amended): provided the first invocation's external call succeeds
with a translation that is non-empty after trimming, translating the same
text twice issues exactly one external call: the first invocation calls
out once and caches the trimmed translation, and the second invocation is
served from the cache, returns the identical string, makes no external
call (whatever the AI would do), and leaves the cache unchanged. -/
theorem translate_cache_idempotent (cache : List (String × String))
    (apiKey : Option String) (text s : String) (ai2 : Except String (Option String))
    (hlen : 2 ≤ (jsTrim text).length)
    (hmiss : truthyLookup (cacheLookup cache (translationCacheKey (jsTrim text))) = false)
    (hkey : jsFalsyKey apiKey = false)
    (hs : (jsTrim s == "") = false) :
    (translateText cache apiKey (.ok (some s)) text).2.2 = 1 ∧
    (translateText cache apiKey (.ok (some s)) text).1 = jsTrim s ∧
    translateText (translateText cache apiKey (.ok (some s)) text).2.1 apiKey ai2 text
      = (jsTrim s, (translateText cache apiKey (.ok (some s)) text).2.1, 0) := by
  have h1 : translateText cache apiKey (.ok (some s)) text
      = (jsTrim s, (translationCacheKey (jsTrim text), jsTrim s) :: cache, 1) := by
    unfold translateText
    rw [if_neg (translate_guard_passes text hlen), if_neg (by rw [hmiss]; simp),
      if_neg (by rw [hkey]; simp)]
    rfl
  have hlook : cacheLookup ((translationCacheKey (jsTrim text), jsTrim s) :: cache)
      (translationCacheKey (jsTrim text)) = some (jsTrim s) := by
    simp [cacheLookup, List.find?_cons]
  refine ⟨by rw [h1], by rw [h1], ?_⟩
  rw [h1]
  unfold translateText
  rw [if_neg (translate_guard_passes text hlen), if_pos (by rw [hlook]; simp [truthyLookup, hs])]
  rw [hlook]
  rfl

/-- Witness for C8 (amended): a concrete successful translation is cached
on the first invocation; the second invocation returns the same string
from the cache with no external call, even though the AI would now fail. -/
theorem translate_cache_idempotent_witness :
    translateText (translateText [] (some "k") (.ok (some "nihao")) "hello").2.1
        (some "k") (.error "down") "hello"
      = ("nihao", (translateText [] (some "k") (.ok (some "nihao")) "hello").2.1, 0) :=
  (translate_cache_idempotent [] (some "k") "hello" "nihao" (.error "down")
    (by decide) (by decide) (by decide) (by decide)).2.2

/-- C10: when the API-key environment variable is absent (or empty, which
is equally falsy), `translateText` on an uncached input of trimmed length
at least 2 returns the literal string "Key Missing" — which is neither
empty nor an error — without making any external call (whatever the AI
would return) and without writing to the cache. -/
theorem translate_key_missing (cache : List (String × String)) (apiKey : Option String)
    (ai : Except String (Option String)) (text : String)
    (hlen : 2 ≤ (jsTrim text).length)
    (hmiss : cacheLookup cache (translationCacheKey (jsTrim text)) = none)
    (hkey : jsFalsyKey apiKey = true) :
    translateText cache apiKey ai text = ("Key Missing", cache, 0) ∧
    ("Key Missing" : String) ≠ "" := by
  refine ⟨?_, by decide⟩
  unfold translateText
  rw [if_neg (translate_guard_passes text hlen), if_neg (by rw [hmiss]; simp [truthyLookup]),
    if_pos hkey]

/-- Witness for C10: with no key configured, a concrete uncached
translation request yields "Key Missing", an unchanged cache and zero
external calls. -/
theorem translate_key_missing_witness :
    translateText [] none (.error "never reached") "hello" = ("Key Missing", [], 0) :=
  (translate_key_missing [] none (.error "never reached") "hello" (by decide) (by decide)
    rfl).1

/-! ## Analysis response model (geminiService.ts lines 116-201 and 231-298)

The parsed JSON reply is modelled structurally: every field the response
schema marks as optional-in-practice is an `Option`.  `Math.random()`-based
fresh ids and `new Date().toISOString()` timestamps are oracle parameters. -/

/-- A topic object as parsed from the AI reply, before any defaulting. -/
structure RawTopic where
  id : Option String
  name : String
  keywords : Option (List String)
  novelty : Option ℚ
  impact : Option ℚ
  volume : Option ℚ
  trend : Option String
  description : Option String
  paperIds : Option (List String)

/-- `TopicCluster` from `types.ts`, fully defaulted. -/
structure TopicCluster where
  id : String
  name : String
  keywords : List String
  novelty : ℚ
  impact : ℚ
  volume : Nat
  trend : String
  description : String
  paperIds : List String

/-- `EmergingTopic` from `types.ts`. -/
structure EmergingTopic where
  name : String
  reason : String
  potentialScore : ℚ
  paperIds : List String

/-- A `{year, topic, count}` trend datum from `types.ts`. -/
structure TrendDatum where
  year : Nat
  topic : String
  count : Nat
deriving DecidableEq

/-- The whole parsed AI reply (`rawData` / `JSON.parse(response.text)`). -/
structure RawAnalysis where
  summary : Option String
  methodology : Option String
  noiseCount : Option Nat
  topics : List RawTopic
  emergingTopics : Option (List EmergingTopic)
  trendData : Option (List TrendDatum)

/-- The generic fallback description used by the strict normalizer. -/
def topicFallbackDescription : String := "Cluster identified via strict density analysis."

/-- Normalization of one topic in strict mode (lines 153-163).  `||`
defaults (`id`, `trend`, `description`) also replace an empty string;
`??` defaults (`novelty`, `impact`) only replace an absent value;
`volume` is recomputed from `paperIds`. -/
def normalizeTopic (fresh : String) (t : RawTopic) : TopicCluster :=
  { id := (match t.id with
      | some s => if s = "" then fresh else s
      | none => fresh)
    name := t.name
    keywords := t.keywords.getD []
    novelty := t.novelty.getD (1/2)
    impact := t.impact.getD (1/2)
    volume := (match t.paperIds with
      | some l => l.length
      | none => 0)
    trend := (match t.trend with
      | some s => if s = "" then "stable" else s
      | none => "stable")
    description := (match t.description with
      | some s => if s = "" then topicFallbackDescription else s
      | none => topicFallbackDescription)
    paperIds := t.paperIds.getD [] }

/-- The Mode A/B result shape: the parsed reply passed through unchanged
(`JSON.parse(response.text) as AnalysisResult`) with three stamped fields
(lines 293-297).  No defaulting is applied to the topics. -/
structure AnalysisResultAB where
  summary : Option String
  methodology : Option String
  topics : List RawTopic
  emergingTopics : Option (List EmergingTopic)
  trendData : Option (List TrendDatum)
  totalPapersAnalyzed : Nat
  timestamp : String
  modeUsed : String

/-- Mode A/B response handling (lines 289-297): parse, stamp, return. -/
def analyzeModeAB (cfg : AnalysisConfig) (papers : List Paper) (raw : RawAnalysis)
    (ts : String) : AnalysisResultAB :=
  { summary := raw.summary
    methodology := raw.methodology
    topics := raw.topics
    emergingTopics := raw.emergingTopics
    trendData := raw.trendData
    totalPapersAnalyzed := (papersToAnalyze cfg papers).length
    timestamp := ts
    modeUsed := abModeName cfg.algorithm }

/-! ## Strict-mode local derivation (lines 165-201) -/

/-- Insert a year into a sorted duplicate-free list, keeping it sorted and
duplicate-free. -/
def sortedInsert (y : Nat) : List Nat → List Nat
  | [] => [y]
  | x :: xs =>
    if y < x then y :: x :: xs
    else if y = x then x :: xs
    else x :: sortedInsert y xs

/-- The distinct years of a list in ascending order: this models the
enumeration order of `Object.entries(yearCounts)`, whose keys are
integer-like and hence enumerated in ascending numeric order. -/
def distinctYearsSorted (ys : List Nat) : List Nat :=
  ys.foldr sortedInsert []

/-- `papers.find(paper => paper.id === pid)` (line 170). -/
def findPaper (papers : List Paper) (pid : String) : Option Paper :=
  papers.find? (fun p => p.id == pid)

/-- The publication years of the resolved papers of a topic, with one
entry per paper id that resolves (order of `paperIds`). -/
def resolvedYears (papers : List Paper) (pids : List String) : List Nat :=
  pids.filterMap (fun pid => (findPaper papers pid).map (fun p => p.year))

/-- The number of a topic's paper ids that resolve to a paper published
in year `y`. -/
def resolvedCount (papers : List Paper) (pids : List String) (y : Nat) : Nat :=
  match pids with
  | [] => 0
  | pid :: rest =>
    (match findPaper papers pid with
      | some p => if p.year = y then 1 else 0
      | none => 0) + resolvedCount papers rest y

/-- The `{year, topic, count}` entries contributed by one topic
(lines 167-178): one entry per distinct resolved year, in ascending year
order, counting that topic's resolved papers in that year. -/
def yearEntries (papers : List Paper) (t : TopicCluster) : List TrendDatum :=
  (distinctYearsSorted (resolvedYears papers t.paperIds)).map
    (fun y => { year := y, topic := t.name, count := (resolvedYears papers t.paperIds).count y })

/-- The locally computed `trendData` (lines 166-178): entries of all
topics in order.  Ids are resolved against the FULL input paper list. -/
def trendDataOf (papers : List Paper) (topics : List TopicCluster) : List TrendDatum :=
  topics.flatMap (yearEntries papers)

/-- The fixed reason string attached to strict-mode emerging topics. -/
def strictReason : String := "High Density Cluster (Strict Mode)."

/-- The locally derived `emergingTopics` (lines 180-187): topics with
`trend === 'rising'` or `novelty > 0.8`, with `potentialScore = novelty`
and the fixed reason string. -/
def emergingOf (topics : List TopicCluster) : List EmergingTopic :=
  (topics.filter (fun t => t.trend == "rising" || decide ((0.8 : ℚ) < t.novelty))).map
    (fun t =>
      { name := t.name
        reason := strictReason
        potentialScore := t.novelty
        paperIds := t.paperIds })

/-- Fallback summary in strict mode (`rawData.summary || ...`, line 193). -/
def strictSummaryFallback : String := "Strict analysis completed."

/-- The strict-mode result shape (lines 189-200). -/
structure AnalysisResultStrict where
  topics : List TopicCluster
  emergingTopics : List EmergingTopic
  trendData : List TrendDatum
  summary : String
  methodology : String
  noiseCount : Option Nat
  stopwords : List String
  totalPapersAnalyzed : Nat
  timestamp : String
  modeUsed : String

/-- Strict-mode response handling (lines 150-200): normalize each topic
(with a fresh opaque token per topic for a missing id), derive trend data
and emerging topics locally, and stamp the metadata. -/
def strictAnalyze (cfg : AnalysisConfig) (papers : List Paper) (raw : RawAnalysis)
    (fresh : Nat → String) (ts : String) : AnalysisResultStrict :=
  { topics := raw.topics.mapIdx (fun i t => normalizeTopic (fresh i) t)
    emergingTopics := emergingOf (raw.topics.mapIdx (fun i t => normalizeTopic (fresh i) t))
    trendData := trendDataOf papers (raw.topics.mapIdx (fun i t => normalizeTopic (fresh i) t))
    summary := (match raw.summary with
      | some s => if s = "" then strictSummaryFallback else s
      | none => strictSummaryFallback)
    methodology := if isHighVolume cfg papers then "Mode C (High Vol): Strict Title Clustering"
      else "Mode C: Strict Abstract Clustering"
    noiseCount := raw.noiseCount
    stopwords := []
    totalPapersAnalyzed := (papersToAnalyze cfg papers).length
    timestamp := ts
    modeUsed := "Strict (Mode C)" }

/-! ### C2 -/

/-- The error thrown when the AI reply has no text (line 290). -/
def noResponseMsg : String := "No response text received from AI"

/-- The operation wrapped by `callWithRetry` in the Mode A/B analysis path
(lines 231-298): obtain the response text of attempt `i`; absent or empty
text throws `noResponseMsg`; otherwise the text is JSON-parsed, which
either yields a reply or throws the parser's own error.  Both throws
happen INSIDE the wrapped operation. -/
def analysisAttempt (respond : Nat → Option String)
    (parse : String → Except String RawAnalysis) (i : Nat) : Except String RawAnalysis :=
  match respond i with
  | none => .error noResponseMsg
  | some t => if t = "" then .error noResponseMsg else parse t

/-- Counterexample to C2: an AI that returns empty response text on every
attempt is retried three times (waits 2000, 4000, 8000) before the
empty-response error is surfaced — the failure is treated as transient,
not fatal. -/
theorem analysis_empty_response_retried_counterexample :
    callWithRetry (analysisAttempt (fun _ => some "") (fun t => .error t)) 3 2000
      = (.error noResponseMsg, [2000, 4000, 8000]) ∧
    ([2000, 4000, 8000] : List Nat) ≠ [] :=
  ⟨rfl, by decide⟩

/-- C2 (amended): an absent or empty AI reply raises `noResponseMsg`
inside the retried operation, and a malformed reply raises the JSON
parser's error there; neither message matches a fatal fingerprint (the
parser clause assumes this of the parse error), so `callWithRetry` treats
them as transient: it retries through the whole budget, waiting the full
backoff schedule, and then propagates the error — they are not
fail-immediately conditions. -/
theorem analysis_empty_or_malformed_retried (respond : Nat → Option String)
    (parse : String → Except String RawAnalysis) (retries delay : Nat) :
    ((∀ i, respond i = some "" ∨ respond i = none) →
      callWithRetry (analysisAttempt respond parse) retries delay
        = (.error noResponseMsg, (List.range retries).map (fun j => delay * 2 ^ j))) ∧
    (∀ t em, (∀ i, respond i = some t) → t ≠ "" → parse t = .error em →
      transientError em →
      callWithRetry (analysisAttempt respond parse) retries delay
        = (.error em, (List.range retries).map (fun j => delay * 2 ^ j))) := by
  constructor
  · intro hresp
    have h := callWithRetryAux_exhaust (analysisAttempt respond parse)
      (fun _ => noResponseMsg) retries 0 delay
      (fun j hj => by
        constructor
        · show analysisAttempt respond parse (0 + j) = .error noResponseMsg
          rcases hresp (0 + j) with hr | hr <;>
            (rw [Nat.zero_add] at hr; simp [analysisAttempt, hr])
        · show transientError noResponseMsg
          decide)
    exact h
  · intro t em hresp ht hparse htrans
    have h := callWithRetryAux_exhaust (analysisAttempt respond parse)
      (fun _ => em) retries 0 delay
      (fun j hj => by
        constructor
        · show analysisAttempt respond parse (0 + j) = .error em
          simp [analysisAttempt, hresp j, ht, hparse]
        · show transientError em
          exact htrans)
    exact h

/-- Witness for C2 (amended): the empty-reply clause at a concrete budget,
showing the three doubling waits actually happen. -/
theorem analysis_empty_retried_witness :
    callWithRetry (analysisAttempt (fun _ => some "") (fun t => .error t)) 3 2000
      = (.error noResponseMsg, (List.range 3).map (fun j => 2000 * 2 ^ j)) :=
  (analysis_empty_or_malformed_retried (fun _ => some "") (fun t => .error t) 3 2000).1
    (fun i => Or.inl rfl)

/-! ### C6 -/

/-- A parsed topic with every optional field absent. -/
def minimalRawTopic : RawTopic :=
  { id := none, name := "T", keywords := none, novelty := none, impact := none,
    volume := none, trend := none, description := none, paperIds := none }

/-- A parsed reply containing only `minimalRawTopic`. -/
def rawReplyEx : RawAnalysis :=
  { summary := some "s", methodology := some "m", noiseCount := none,
    topics := [minimalRawTopic], emergingTopics := none, trendData := none }

/-- Counterexample to C6: in standard mode (a non-strict mode) the parsed
topics are passed through with NO defaulting: a topic with missing
`novelty` and `trend` keeps them absent — `novelty` is not 0.5 and
`trend` is not "stable". -/
theorem modeAB_no_defaulting_counterexample :
    ((analyzeModeAB cfgStdBalanced [] rawReplyEx "ts").topics.map (fun t => t.novelty)) = [none] ∧
    ((analyzeModeAB cfgStdBalanced [] rawReplyEx "ts").topics.map (fun t => t.trend)) = [none] ∧
    (none : Option ℚ) ≠ some (1/2 : ℚ) :=
  ⟨rfl, rfl, by simp⟩

/-- C6 (amended): the per-topic defaulting happens in STRICT mode only,
where `normalizeTopic` defaults a missing id to the fresh opaque token,
keywords to `[]`, novelty and impact to 0.5, volume to the length of
`paperIds` if present else 0, trend to "stable", description to the
generic fallback string, and paperIds to `[]`; the strict pipeline
normalizes every topic this way, while the consultant/standard pipeline
passes the parsed topics through unchanged. -/
theorem strict_normalizer_defaults (f : String) (t : RawTopic) (cfg : AnalysisConfig)
    (papers : List Paper) (raw : RawAnalysis) (fresh : Nat → String) (ts : String) :
    (t.id = none → (normalizeTopic f t).id = f) ∧
    (t.keywords = none → (normalizeTopic f t).keywords = []) ∧
    (t.novelty = none → (normalizeTopic f t).novelty = 1/2) ∧
    (t.impact = none → (normalizeTopic f t).impact = 1/2) ∧
    (∀ l, t.paperIds = some l → (normalizeTopic f t).volume = l.length) ∧
    (t.paperIds = none → (normalizeTopic f t).volume = 0) ∧
    (t.trend = none → (normalizeTopic f t).trend = "stable") ∧
    (t.description = none → (normalizeTopic f t).description = topicFallbackDescription) ∧
    (t.paperIds = none → (normalizeTopic f t).paperIds = []) ∧
    (strictAnalyze cfg papers raw fresh ts).topics
      = raw.topics.mapIdx (fun i t => normalizeTopic (fresh i) t) ∧
    (analyzeModeAB cfg papers raw ts).topics = raw.topics :=
  ⟨fun h => by simp [normalizeTopic, h],
   fun h => by simp [normalizeTopic, h],
   fun h => by simp [normalizeTopic, h],
   fun h => by simp [normalizeTopic, h],
   fun l h => by simp [normalizeTopic, h],
   fun h => by simp [normalizeTopic, h],
   fun h => by simp [normalizeTopic, h],
   fun h => by simp [normalizeTopic, h],
   fun h => by simp [normalizeTopic, h],
   rfl, rfl⟩

/-- Witness for C6 (amended): the defaults on a concrete all-absent topic. -/
theorem strict_normalizer_defaults_witness :
    (normalizeTopic "tok" minimalRawTopic).id = "tok" ∧
    (normalizeTopic "tok" minimalRawTopic).keywords = [] ∧
    (normalizeTopic "tok" minimalRawTopic).novelty = 1/2 ∧
    (normalizeTopic "tok" minimalRawTopic).impact = 1/2 ∧
    (normalizeTopic "tok" minimalRawTopic).volume = 0 ∧
    (normalizeTopic "tok" minimalRawTopic).trend = "stable" ∧
    (normalizeTopic "tok" minimalRawTopic).description = topicFallbackDescription ∧
    (normalizeTopic "tok" minimalRawTopic).paperIds = [] := by
  obtain ⟨h1, h2, h3, h4, h5, h6, h7, h8, h9, h10, h11⟩ :=
    strict_normalizer_defaults "tok" minimalRawTopic cfgStdBalanced [] rawReplyEx
      (fun _ => "x") "ts"
  exact ⟨h1 rfl, h2 rfl, h3 rfl, h4 rfl, h6 rfl, h7 rfl, h8 rfl, h9 rfl⟩

/-! ### C9: strict-mode local derivation -/

/-- Membership in `sortedInsert`. -/
theorem mem_sortedInsert (a y : Nat) : ∀ l : List Nat, a ∈ sortedInsert y l ↔ a = y ∨ a ∈ l := by
  intro l
  induction l with
  | nil => simp [sortedInsert]
  | cons x xs ih =>
    unfold sortedInsert
    by_cases h1 : y < x
    · simp [h1, List.mem_cons]
    · by_cases h2 : y = x
      · simp [h1, h2, List.mem_cons]
      · simp [h1, h2, List.mem_cons, ih]
        tauto

/-- `sortedInsert` preserves strict sortedness. -/
theorem sorted_sortedInsert (y : Nat) :
    ∀ l : List Nat, List.Sorted (· < ·) l → List.Sorted (· < ·) (sortedInsert y l) := by
  intro l
  induction l with
  | nil =>
    intro _
    simp [sortedInsert]
  | cons x xs ih =>
    intro hs
    rw [List.sorted_cons] at hs
    unfold sortedInsert
    by_cases h1 : y < x
    · rw [if_pos h1, List.sorted_cons]
      constructor
      · intro b hb
        rcases List.mem_cons.mp hb with rfl | hb
        · exact h1
        · exact Nat.lt_trans h1 (hs.1 b hb)
      · rw [List.sorted_cons]
        exact hs
    · rw [if_neg h1]
      by_cases h2 : y = x
      · rw [if_pos h2, List.sorted_cons]
        exact hs
      · rw [if_neg h2, List.sorted_cons]
        constructor
        · intro b hb
          rcases (mem_sortedInsert b y xs).mp hb with rfl | hb
          · omega
          · exact hs.1 b hb
        · exact ih hs.2

/-- The distinct-year list is sorted strictly ascending. -/
theorem sorted_distinctYearsSorted (ys : List Nat) :
    List.Sorted (· < ·) (distinctYearsSorted ys) := by
  induction ys with
  | nil => simp [distinctYearsSorted]
  | cons y ys ih =>
    show List.Sorted (· < ·) (sortedInsert y (distinctYearsSorted ys))
    exact sorted_sortedInsert y _ ih

/-- The distinct-year list has the same members as the input. -/
theorem mem_distinctYearsSorted (a : Nat) (ys : List Nat) :
    a ∈ distinctYearsSorted ys ↔ a ∈ ys := by
  induction ys with
  | nil => simp [distinctYearsSorted]
  | cons y ys ih =>
    show a ∈ sortedInsert y (distinctYearsSorted ys) ↔ _
    rw [mem_sortedInsert, ih]
    simp [List.mem_cons]

/-- The distinct-year list is duplicate-free. -/
theorem nodup_distinctYearsSorted (ys : List Nat) : (distinctYearsSorted ys).Nodup :=
  (sorted_distinctYearsSorted ys).nodup

/-- Counting a year among the resolved years equals the number of paper
ids resolving to that year. -/
theorem count_resolvedYears (papers : List Paper) (y : Nat) :
    ∀ pids : List String, (resolvedYears papers pids).count y = resolvedCount papers pids y := by
  intro pids
  induction pids with
  | nil => rfl
  | cons pid rest ih =>
    cases hf : findPaper papers pid with
    | none =>
      have h1 : resolvedYears papers (pid :: rest) = resolvedYears papers rest := by
        unfold resolvedYears
        rw [List.filterMap_cons, hf]
        rfl
      have h2 : resolvedCount papers (pid :: rest) y = resolvedCount papers rest y := by
        show (match findPaper papers pid with
          | some p => if p.year = y then 1 else 0
          | none => 0) + resolvedCount papers rest y = resolvedCount papers rest y
        rw [hf]
        simp
      rw [h1, h2]
      exact ih
    | some p =>
      have h1 : resolvedYears papers (pid :: rest) = p.year :: resolvedYears papers rest := by
        unfold resolvedYears
        rw [List.filterMap_cons, hf]
        rfl
      have h2 : resolvedCount papers (pid :: rest) y
          = (if p.year = y then 1 else 0) + resolvedCount papers rest y := by
        show (match findPaper papers pid with
          | some p => if p.year = y then 1 else 0
          | none => 0) + resolvedCount papers rest y = _
        rw [hf]
      rw [h1, h2, List.count_cons, ih]
      by_cases hy : p.year = y
      · simp [hy]
        omega
      · simp [hy]

/-- Membership in the trend entries of one topic. -/
theorem mem_yearEntries (papers : List Paper) (t : TopicCluster) (d : TrendDatum) :
    d ∈ yearEntries papers t ↔
      d.topic = t.name ∧ 0 < resolvedCount papers t.paperIds d.year ∧
        d.count = resolvedCount papers t.paperIds d.year := by
  unfold yearEntries
  rw [List.mem_map]
  constructor
  · rintro ⟨y, hy, rfl⟩
    rw [mem_distinctYearsSorted] at hy
    refine ⟨rfl, ?_, ?_⟩
    · rw [← count_resolvedYears]
      exact List.count_pos_iff.mpr hy
    · exact count_resolvedYears papers y t.paperIds
  · rintro ⟨ht, hc, he⟩
    refine ⟨d.year, ?_, ?_⟩
    · rw [mem_distinctYearsSorted]
      rw [← count_resolvedYears] at hc
      exact List.count_pos_iff.mp hc
    · obtain ⟨dy, dt, dc⟩ := d
      simp only at ht he ⊢
      rw [count_resolvedYears, ht, he]

/-- C9: in strict mode, for topics with duplicate-free names referencing
pairwise-disjoint duplicate-free sets of paper ids that all resolve to
papers with known years, the locally computed `trendData` contains an
entry `{year, topic, count}` exactly for the pairs where the topic has at
least one resolved paper in that year, with `count` the number of that
topic's resolved papers published in that year; the `(topic, year)`
projections of its entries are pairwise distinct (exactly one entry per
pair); and `emergingTopics` contains exactly the topics with
`trend = "rising"` or `novelty > 0.8`, each carried over with
`potentialScore` equal to the topic's novelty and the fixed reason
string. -/
theorem strict_local_derivation (papers : List Paper) (topics : List TopicCluster)
    (hnames : (topics.map TopicCluster.name).Nodup)
    (hdisj : topics.Pairwise (fun a b => ∀ pid ∈ a.paperIds, pid ∉ b.paperIds))
    (hres : ∀ t ∈ topics, ∀ pid ∈ t.paperIds, (findPaper papers pid).isSome = true)
    (hnd : ∀ t ∈ topics, t.paperIds.Nodup) :
    (∀ d : TrendDatum, d ∈ trendDataOf papers topics ↔
      ∃ t ∈ topics, d.topic = t.name ∧ 0 < resolvedCount papers t.paperIds d.year ∧
        d.count = resolvedCount papers t.paperIds d.year) ∧
    ((trendDataOf papers topics).map (fun d => (d.topic, d.year))).Nodup ∧
    (∀ e : EmergingTopic, e ∈ emergingOf topics ↔
      ∃ t ∈ topics, (t.trend = "rising" ∨ (0.8 : ℚ) < t.novelty) ∧
        e = ⟨t.name, strictReason, t.novelty, t.paperIds⟩) := by
  refine ⟨?_, ?_, ?_⟩
  · intro d
    unfold trendDataOf
    rw [List.mem_flatMap]
    constructor
    · rintro ⟨t, htmem, hd⟩
      exact ⟨t, htmem, (mem_yearEntries papers t d).mp hd⟩
    · rintro ⟨t, htmem, h⟩
      exact ⟨t, htmem, (mem_yearEntries papers t d).mpr h⟩
  · unfold trendDataOf
    rw [List.map_flatMap, List.nodup_flatMap]
    constructor
    · intro t ht
      unfold yearEntries
      rw [List.map_map]
      have hcomp : ((fun d : TrendDatum => (d.topic, d.year)) ∘
          (fun y => (⟨y, t.name, (resolvedYears papers t.paperIds).count y⟩ : TrendDatum)))
          = fun y => (t.name, y) := rfl
      rw [hcomp]
      refine List.Nodup.map ?_ (nodup_distinctYearsSorted _)
      intro a b hab
      simpa using congrArg Prod.snd hab
    · have hp : topics.Pairwise (fun a b => a.name ≠ b.name) := by
        rw [show ((topics.map TopicCluster.name).Nodup : Prop)
            = List.Pairwise (fun a b => a ≠ b) (topics.map TopicCluster.name) from rfl] at hnames
        exact List.pairwise_map.mp hnames
      refine hp.imp ?_
      intro a b hab x hxa hxb
      rw [List.mem_map] at hxa hxb
      obtain ⟨d1, hd1, rfl⟩ := hxa
      obtain ⟨d2, hd2, hx⟩ := hxb
      have h1 := ((mem_yearEntries papers a d1).mp hd1).1
      have h2 := ((mem_yearEntries papers b d2).mp hd2).1
      apply hab
      rw [← h1, ← h2]
      exact (congrArg Prod.fst hx).symm
  · intro e
    unfold emergingOf
    rw [List.mem_map]
    constructor
    · rintro ⟨t, htf, rfl⟩
      rw [List.mem_filter] at htf
      refine ⟨t, htf.1, ?_, rfl⟩
      simpa using htf.2
    · rintro ⟨t, htmem, hcond, rfl⟩
      refine ⟨t, ?_, rfl⟩
      rw [List.mem_filter]
      exact ⟨htmem, by simpa using hcond⟩

/-- Concrete papers for the C9 witness. -/
def paperA : Paper := { id := "a", title := "ta", abstract := "", year := 2020, journal := "", authors := none }

/-- Second concrete paper. -/
def paperB : Paper := { id := "b", title := "tb", abstract := "", year := 2021, journal := "", authors := none }

/-- Third concrete paper. -/
def paperC : Paper := { id := "c", title := "tc", abstract := "", year := 2021, journal := "", authors := none }

/-- The concrete paper list for the C9 witness. -/
def papersEx : List Paper := [paperA, paperB, paperC]

/-- A rising topic referencing papers "a" and "b". -/
def topicT1 : TopicCluster :=
  { id := "t1", name := "T1", keywords := [], novelty := 0, impact := 0, volume := 2,
    trend := "rising", description := "d1", paperIds := ["a", "b"] }

/-- A stable topic referencing paper "c". -/
def topicT2 : TopicCluster :=
  { id := "t2", name := "T2", keywords := [], novelty := 1, impact := 0, volume := 1,
    trend := "stable", description := "d2", paperIds := ["c"] }

/-- The concrete topic list for the C9 witness. -/
def topicsEx : List TopicCluster := [topicT1, topicT2]

/-- Witness for C9: two disjoint resolvable topics; the trend data
contains the (2021, T1) entry with count 1, and its (topic, year)
projections are duplicate-free. -/
theorem strict_local_derivation_witness :
    (⟨2021, "T1", 1⟩ : TrendDatum) ∈ trendDataOf papersEx topicsEx ∧
    ((trendDataOf papersEx topicsEx).map (fun d => (d.topic, d.year))).Nodup := by
  have h := strict_local_derivation papersEx topicsEx (by decide) (by decide) (by decide)
    (by decide)
  constructor
  · exact (h.1 ⟨2021, "T1", 1⟩).mpr ⟨topicT1, List.mem_cons_self _ _, rfl, by decide, by decide⟩
  · exact h.2.1
